import Mathlib

/-!
Verification development for the timecard-excel service (src/main.go).

The core under study is the `makeHandler` HTTP handler: it decodes a
`Request`, picks a sheet from the week number, loads the embedded
template, writes the employee name and the per-row date cells, and
serializes the workbook back to bytes.  We embed the handler's pure
decision logic as Lean functions.  Writes to the excelize workbook are
modelled as an explicit trace of `WbAction`s (cell-value writes and, so
that style claims are expressible, cell-style applications — the code
issues none of the latter).  The two external collaborators (embedded
template storage and the excelize serializer) are modelled by an
`Infra` oracle saying whether each call succeeds.
-/

/-- A calendar date as produced by a successful `time.Parse` of the
layout `2006-01-02` (only the date fields matter to this program). -/
structure NormalizedDate where
  year : Nat
  month : Nat
  day : Nat
deriving DecidableEq, Repr

/-- Go `isLeap` (time package): divisible by 4, except centuries that
are not divisible by 400. -/
def isLeap (y : Nat) : Bool :=
  y % 4 == 0 && (y % 100 != 0 || y % 400 == 0)

/-- Go `daysIn(m, year)`: number of days of month `m` in year `y`. -/
def daysIn (y m : Nat) : Nat :=
  if m == 2 then (if isLeap y then 29 else 28)
  else if m == 4 || m == 6 || m == 9 || m == 11 then 30
  else 31

/-- ASCII digit test, as Go's `isDigit` used by `time.Parse`. -/
def isDigit (c : Char) : Bool :=
  '0' ≤ c && c ≤ '9'

/-- Numeric value of an ASCII digit character. -/
def digitVal (c : Char) : Nat :=
  c.toNat - '0'.toNat

/-- Embedding of `time.Parse("2006-01-02", s)` restricted to its date
result (src/main.go lines 168 and 186).  Go's fixed layout demands
exactly ten characters `DDDD-DD-DD` (four digit year, dash, two digit
month, dash, two digit day, nothing trailing), then validates the month
against 1..12 and the day against the month length. -/
def parseISODate (s : String) : Option NormalizedDate :=
  match s.data with
  | [y1, y2, y3, y4, h1, m1, m2, h2, d1, d2] =>
    if isDigit y1 && isDigit y2 && isDigit y3 && isDigit y4 && h1 == '-' &&
       isDigit m1 && isDigit m2 && h2 == '-' && isDigit d1 && isDigit d2 then
      let year := ((digitVal y1 * 10 + digitVal y2) * 10 + digitVal y3) * 10 + digitVal y4
      let month := digitVal m1 * 10 + digitVal m2
      let day := digitVal d1 * 10 + digitVal d2
      if 1 ≤ month ∧ month ≤ 12 then
        if 1 ≤ day ∧ day ≤ daysIn year month then
          some ⟨year, month, day⟩
        else none
      else none
    else none
  | _ => none

/-- `Row` from src/main.go (a daily record of the request payload).
`Hours` is a float64 in Go; it is only ever transcribed, never computed
with, so an exact rational stands in for it. -/
structure Row where
  Date : String
  Project : String
  Hours : Rat
  «Type» : String
  Notes : String
deriving DecidableEq

/-- `Request` from src/main.go. -/
structure Request where
  EmployeeName : String
  WeekNumber : Int
  Rows : List Row
  TotalOC : Rat
  TotalOT : Rat
deriving DecidableEq

/-- `const startRow = 5`: first data row (Sunday). -/
def startRow : Int := 5

/-- Week 1 employee cell, `const cellEmployeeW1 = "M2"`. -/
def cellEmployeeW1 : String := "M2"

/-- Week 2 employee cell, `const cellEmployeeW2 = "AJ2"`. -/
def cellEmployeeW2 : String := "AJ2"

/-- `colMap` from src/main.go: column letters for the detail rows. -/
structure colMap where
  Date : String
  Project : String
  Hours : String
  «Type» : String
  Notes : String

/-- `var cols`: only the Date column is mapped (to column B); the other
columns are empty strings, which makes `setIfCol` skip them. -/
def cols : colMap := ⟨"B", "", "", "", ""⟩

/-- `const cellOTHeaderDateW1 = ""` (disabled). -/
def cellOTHeaderDateW1 : String := ""

/-- `const cellOTHeaderDateW2 = ""` (disabled). -/
def cellOTHeaderDateW2 : String := ""

/-- `const cellTotalRegularW1 = ""` (disabled). -/
def cellTotalRegularW1 : String := ""

/-- `const cellTotalOTW1 = ""` (disabled). -/
def cellTotalOTW1 : String := ""

/-- `const cellTotalDTW1 = ""` (disabled). -/
def cellTotalDTW1 : String := ""

/-- `const cellTotalRegularW2 = ""` (disabled). -/
def cellTotalRegularW2 : String := ""

/-- `const cellTotalOTW2 = ""` (disabled). -/
def cellTotalOTW2 : String := ""

/-- `const cellTotalDTW2 = ""` (disabled). -/
def cellTotalDTW2 : String := ""

/-- A value passed to excelize `SetCellValue` (Go `any`): in this
program either a string, a parsed date (`time.Time`), or a float. -/
inductive Value where
  | str (s : String)
  | date (d : NormalizedDate)
  | num (x : Rat)
deriving DecidableEq

/-- One call into the excelize collaborator.  The program only ever
issues `SetCellValue`; the style constructor exists so that claims
about styles are expressible (and provably never used). -/
inductive WbAction where
  | setCellValue (sheet cell : String) (v : Value)
  | setCellStyle (sheet cell : String) (styleId : Nat)
deriving DecidableEq

/-- Go helper `itoa` (src/main.go lines 100-117): manual decimal
conversion, extensionally the standard decimal representation. -/
def itoa (i : Int) : String := toString i

/-- `setIfCol`: write only if a column is provided (src/main.go 84-89). -/
def setIfCol (sheet col : String) (row : Int) (v : Value) : List WbAction :=
  if col = "" then [] else [WbAction.setCellValue sheet (col ++ itoa row) v]

/-- `setIfCell`: write to an absolute cell only if provided
(src/main.go 92-97). -/
def setIfCell (sheet cell : String) (v : Value) : List WbAction :=
  if cell = "" then [] else [WbAction.setCellValue sheet cell v]

/-- The value written for a row's date (src/main.go 168-172): the
parsed date if `time.Parse` succeeds, otherwise the raw text. -/
def dateCellValue (ds : String) : Value :=
  match parseISODate ds with
  | some t => Value.date t
  | none => Value.str ds

/-- The detail-row loop of `makeHandler` (src/main.go 165-181): for
each row, write its date (or raw text) via `setIfCol`, then the
Project/Hours/Type/Notes columns (all unmapped), advancing `rowIdx`. -/
def rowWrites (sheet : String) (rows : List Row) (rowIdx : Int) : List WbAction :=
  match rows with
  | [] => []
  | rr :: rest =>
    setIfCol sheet cols.Date rowIdx (dateCellValue rr.Date) ++
    setIfCol sheet cols.Project rowIdx (Value.str rr.Project) ++
    setIfCol sheet cols.Hours rowIdx (Value.num rr.Hours) ++
    setIfCol sheet cols.«Type» rowIdx (Value.str rr.«Type») ++
    setIfCol sheet cols.Notes rowIdx (Value.str rr.Notes) ++
    rowWrites sheet rest (rowIdx + 1)

/-- Sheet selection (src/main.go 142-145): `"Week 1"` unless the week
number is exactly 2. -/
def sheetFor (req : Request) : String :=
  if req.WeekNumber = 2 then "Week 2" else "Week 1"

/-- The optional OT-header date write (src/main.go 184-194): if there
is a first row with a non-empty date text, write that date (parsed if
possible) to the OT header cell of the chosen sheet — both cell
constants are empty, so `setIfCell` drops the write. -/
def otHeaderWrites (rows : List Row) (sheet : String) : List WbAction :=
  match rows with
  | [] => []
  | r0 :: _ =>
    if r0.Date ≠ "" then
      if sheet = "Week 1" then setIfCell "Week 1" cellOTHeaderDateW1 (dateCellValue r0.Date)
      else setIfCell "Week 2" cellOTHeaderDateW2 (dateCellValue r0.Date)
    else []

/-- `writeTotals` closure (src/main.go 197-220): each write is guarded
on its cell constant being non-empty and the value being non-zero. -/
def writeTotals (s : String) (reg ot dt : Rat) : List WbAction :=
  if s = "Week 1" then
    (if cellTotalRegularW1 ≠ "" ∧ reg ≠ 0 then [WbAction.setCellValue s cellTotalRegularW1 (Value.num reg)] else []) ++
    (if cellTotalOTW1 ≠ "" ∧ ot ≠ 0 then [WbAction.setCellValue s cellTotalOTW1 (Value.num ot)] else []) ++
    (if cellTotalDTW1 ≠ "" ∧ dt ≠ 0 then [WbAction.setCellValue s cellTotalDTW1 (Value.num dt)] else [])
  else if s = "Week 2" then
    (if cellTotalRegularW2 ≠ "" ∧ reg ≠ 0 then [WbAction.setCellValue s cellTotalRegularW2 (Value.num reg)] else []) ++
    (if cellTotalOTW2 ≠ "" ∧ ot ≠ 0 then [WbAction.setCellValue s cellTotalOTW2 (Value.num ot)] else []) ++
    (if cellTotalDTW2 ≠ "" ∧ dt ≠ 0 then [WbAction.setCellValue s cellTotalDTW2 (Value.num dt)] else [])
  else []

/-- The full sequence of collaborator calls `makeHandler` issues
against the open workbook, in program order (src/main.go 160-222):
employee name to both weeks, the detail rows on the selected sheet,
the (disabled) OT header date, and `writeTotals(sheet, 0, TotalOT, 0)`. -/
def populateWrites (req : Request) : List WbAction :=
  setIfCell "Week 1" cellEmployeeW1 (Value.str req.EmployeeName) ++
  setIfCell "Week 2" cellEmployeeW2 (Value.str req.EmployeeName) ++
  rowWrites (sheetFor req) req.Rows startRow ++
  otHeaderWrites req.Rows (sheetFor req) ++
  writeTotals (sheetFor req) 0 req.TotalOT 0

/-- Outcome oracle for the two external collaborators: whether the
embedded-template read, the excelize open, and the final
`WriteToBuffer` succeed, and which bytes serializing a populated
workbook yields. -/
structure Infra where
  readOK : Bool
  openOK : Bool
  serializeOK : Bool
  serialize : List WbAction → List Nat

/-- The three fatal error exits of `makeHandler` after JSON decoding. -/
inductive HandlerError where
  | templateRead
  | openTemplate
  | writeXlsx
deriving DecidableEq

/-- Control-flow skeleton of `makeHandler` (src/main.go 141-237) after
a successful JSON decode: template read, excelize open, the cell
writes, then serialization; each infrastructure failure short-circuits
with an error before any spreadsheet bytes exist. -/
def makeHandler (infra : Infra) (req : Request) : Except HandlerError (List Nat) :=
  if infra.readOK = false then Except.error HandlerError.templateRead
  else if infra.openOK = false then Except.error HandlerError.openTemplate
  else
    if infra.serializeOK = false then Except.error HandlerError.writeXlsx
    else Except.ok (infra.serialize (populateWrites req))

/-- Copy of a request with the week number replaced (used to compare
behaviours across selectors). -/
def setWeekNumber (req : Request) (w : Int) : Request :=
  ⟨req.EmployeeName, w, req.Rows, req.TotalOC, req.TotalOT⟩

example : parseISODate "01-02-03" = none := by decide

example : parseISODate "2001-02-03" = some ⟨2001, 2, 3⟩ := by decide

example : parseISODate "2023-08-09" = some ⟨2023, 8, 9⟩ := by decide

example : parseISODate "2024-02-29" = some ⟨2024, 2, 29⟩ := by decide

example : parseISODate "2023-02-29" = none := by decide

example : parseISODate "2023/08/09" = none := by decide

/-- All six totals cell constants are empty, so `writeTotals` never
emits a write. -/
lemma writeTotals_eq_nil (s : String) (reg ot dt : Rat) :
    writeTotals s reg ot dt = [] := by
  unfold writeTotals
  simp [cellTotalRegularW1, cellTotalOTW1, cellTotalDTW1,
    cellTotalRegularW2, cellTotalOTW2, cellTotalDTW2]

/-- Both OT-header cell constants are empty, so the OT-header date
write is always dropped. -/
lemma otHeaderWrites_eq_nil (rows : List Row) (sheet : String) :
    otHeaderWrites rows sheet = [] := by
  unfold otHeaderWrites
  cases rows with
  | nil => rfl
  | cons r0 rest =>
    simp [setIfCell, cellOTHeaderDateW1, cellOTHeaderDateW2]

/-- The whole trace is the two employee-name writes followed by the
detail-row writes; the OT-header and totals segments are empty. -/
lemma populateWrites_eq (req : Request) :
    populateWrites req =
      WbAction.setCellValue "Week 1" cellEmployeeW1 (Value.str req.EmployeeName) ::
      WbAction.setCellValue "Week 2" cellEmployeeW2 (Value.str req.EmployeeName) ::
      rowWrites (sheetFor req) req.Rows startRow := by
  unfold populateWrites
  rw [writeTotals_eq_nil, otHeaderWrites_eq_nil]
  simp [setIfCell, cellEmployeeW1, cellEmployeeW2]

/-- Unfolding one detail row: only the Date column is mapped, so the
iteration contributes exactly one write, to column B of `rowIdx`. -/
lemma rowWrites_cons (sheet : String) (rr : Row) (rest : List Row) (r : Int) :
    rowWrites sheet (rr :: rest) r =
      WbAction.setCellValue sheet ("B" ++ itoa r) (dateCellValue rr.Date) ::
      rowWrites sheet rest (r + 1) := by
  simp [rowWrites, setIfCol, cols]

/-- One write per row: the detail loop has no seven-entry cap. -/
lemma rowWrites_length (sheet : String) (rows : List Row) (r : Int) :
    (rowWrites sheet rows r).length = rows.length := by
  induction rows generalizing r with
  | nil => rfl
  | cons rr rest ih =>
    rw [rowWrites_cons]
    simp [ih]

/-- The i-th element of the detail trace is the date write of the i-th
row, at row index `r + i`. -/
lemma rowWrites_get? (sheet : String) (rows : List Row) (r : Int) (i : Nat) :
    (rowWrites sheet rows r).get? i =
      (rows.get? i).map
        (fun rr => WbAction.setCellValue sheet ("B" ++ itoa (r + i)) (dateCellValue rr.Date)) := by
  induction rows generalizing r i with
  | nil => simp [rowWrites]
  | cons rr rest ih =>
    rw [rowWrites_cons]
    cases i with
    | zero => simp
    | succ j =>
      simp only [List.get?_cons_succ]
      rw [ih (r + 1) j]
      have harg : r + 1 + (j : Int) = r + ((j : Nat) + 1 : Nat) := by push_cast; ring
      rw [harg]

/-- Every element of the detail trace is some row's date write. -/
lemma rowWrites_mem (sheet : String) (rows : List Row) (r : Int) (a : WbAction)
    (ha : a ∈ rowWrites sheet rows r) :
    ∃ i rr, rows.get? i = some rr ∧
      a = WbAction.setCellValue sheet ("B" ++ itoa (r + i)) (dateCellValue rr.Date) := by
  induction rows generalizing r with
  | nil => simp [rowWrites] at ha
  | cons rr rest ih =>
    rw [rowWrites_cons] at ha
    rcases List.mem_cons.mp ha with h | h
    · exact ⟨0, rr, rfl, by simpa using h⟩
    · obtain ⟨i, rr', h1, h2⟩ := ih (r + 1) h
      refine ⟨i + 1, rr', by simpa using h1, ?_⟩
      rw [h2]
      have harg : r + 1 + (i : Int) = r + ((i : Nat) + 1 : Nat) := by push_cast; ring
      rw [harg]

/-- Modelled from the spec: the previous calendar day (borrowing from
the month and year as needed), used only to express the week-start
derivation of spec section 4.2 step 7, which has no counterpart in
src/main.go. -/
def prevDay (d : NormalizedDate) : NormalizedDate :=
  if 1 < d.day then ⟨d.year, d.month, d.day - 1⟩
  else if 1 < d.month then ⟨d.year, d.month - 1, daysIn d.year (d.month - 1)⟩
  else ⟨d.year - 1, 12, 31⟩

/-- Modelled from the spec: subtract `k` calendar days. -/
def subDays (d : NormalizedDate) : Nat → NormalizedDate
  | 0 => d
  | k + 1 => subDays (prevDay d) k

/-- Modelled from the spec: day-of-week index with Sunday = 0
(Zeller's congruence; `h` is 0 for Saturday, 1 for Sunday, ...). -/
def weekdayIndex (d : NormalizedDate) : Nat :=
  let m := if d.month ≤ 2 then d.month + 12 else d.month
  let y := if d.month ≤ 2 then d.year - 1 else d.year
  let K := y % 100
  let J := y / 100
  let h := (d.day + (13 * (m + 1)) / 5 + K + K / 4 + J / 4 + 5 * J) % 7
  (h + 6) % 7

/-- Modelled from the spec: the week-start anchor, the Sunday on or
before `d`, computed by subtracting `weekday_index mod 7` days
(spec section 4.2 step 7).  src/main.go contains no such computation;
this definition exists to state what the spec asks for. -/
def specWeekStart (d : NormalizedDate) : NormalizedDate :=
  subDays d (weekdayIndex d % 7)

/-- A row fixture carrying only a date text. -/
def mkRow (ds : String) : Row :=
  ⟨ds, "", 0, "", ""⟩

/-- Infrastructure oracle in which every collaborator call succeeds
(the serialized bytes themselves are irrelevant to the claims). -/
def infraOK : Infra :=
  ⟨true, true, true, fun _ => []⟩

/-- Does an action write the given calendar date as a cell value? -/
def mentionsDate (dd : NormalizedDate) (a : WbAction) : Bool :=
  match a with
  | WbAction.setCellValue _ _ (Value.date d) => d == dd
  | _ => false

example : weekdayIndex ⟨2023, 8, 9⟩ = 3 := by decide
example : weekdayIndex ⟨2023, 8, 6⟩ = 0 := by decide
example : specWeekStart ⟨2023, 8, 9⟩ = ⟨2023, 8, 6⟩ := by decide
example : specWeekStart ⟨2024, 3, 1⟩ = ⟨2024, 2, 25⟩ := by decide
example : specWeekStart ⟨2023, 1, 1⟩ = ⟨2023, 1, 1⟩ := by decide

/-- A six-entry request (fewer than seven rows). -/
def creq1 : Request :=
  ⟨"Alice", 1,
    [mkRow "2023-08-06", mkRow "2023-08-07", mkRow "2023-08-08",
     mkRow "2023-08-09", mkRow "2023-08-10", mkRow "2023-08-11"], 10, 5⟩

/-- C1 counterexample: a request with six entries is not rejected —
with all collaborators succeeding, `makeHandler` returns serialized
output bytes (and its trace writes cells), so no
`InsufficientRowsError` exists anywhere in the control flow. -/
theorem c1_counterexample :
    creq1.Rows.length = 6 ∧
    makeHandler infraOK creq1 = Except.ok (infraOK.serialize (populateWrites creq1)) ∧
    populateWrites creq1 ≠ [] := by
  refine ⟨rfl, rfl, ?_⟩
  decide

/-- C1 (amended): the code performs no minimum-entry validation — for
every request with fewer than seven entries and succeeding
infrastructure, `makeHandler` succeeds and returns the serialized
workbook, processing the request like any other. -/
theorem c1_no_minimum_rows_check (infra : Infra) (req : Request)
    (h1 : infra.readOK = true) (h2 : infra.openOK = true) (h3 : infra.serializeOK = true)
    (_h4 : req.Rows.length < 7) :
    makeHandler infra req = Except.ok (infra.serialize (populateWrites req)) := by
  unfold makeHandler
  simp [h1, h2, h3]

/-- C1 witness: the amended theorem applied to the six-entry request. -/
theorem c1_witness :
    makeHandler infraOK creq1 = Except.ok (infraOK.serialize (populateWrites creq1)) :=
  c1_no_minimum_rows_check infraOK creq1 rfl rfl rfl (by decide)

/-- C2 counterexample: the string 01-02-03 does not normalize at all
(let alone to 2001-02-03): the single accepted layout needs a
four-digit year, and no other format is ever tried, so the raw text is
written through. -/
theorem c2_counterexample :
    parseISODate "01-02-03" = none ∧ dateCellValue "01-02-03" = Value.str "01-02-03" := by
  constructor <;> decide

/-- The ten-character dash pattern DDDD-DD-DD of the single layout the
code parses against. -/
def isoDashShape (s : String) : Bool :=
  match s.data with
  | [y1, y2, y3, y4, h1, m1, m2, h2, d1, d2] =>
    isDigit y1 && isDigit y2 && isDigit y3 && isDigit y4 && h1 == '-' &&
    isDigit m1 && isDigit m2 && h2 == '-' && isDigit d1 && isDigit d2
  | _ => false

/-- C2 (amended): the Date Normalizer tries exactly one format, the
Go layout `2006-01-02` (ISO extended with four-digit year); every
successful parse comes from a ten-character all-dash shape, so the
slash and two-digit-year formats of the spec are never accepted; in
particular 01-02-03 fails while 2001-02-03 parses. -/
theorem c2_single_format :
    (∀ s d, parseISODate s = some d → isoDashShape s = true) ∧
    parseISODate "01-02-03" = none ∧
    parseISODate "2001-02-03" = some ⟨2001, 2, 3⟩ := by
  refine ⟨?_, by decide, by decide⟩
  intro s d h
  unfold parseISODate at h
  unfold isoDashShape
  split at h
  · split at h
    · next hguard => exact hguard
    · exact absurd h (by simp)
  · exact absurd h (by simp)

/-- C2 witness: the shape characterization applied to 2001-02-03. -/
theorem c2_witness : isoDashShape "2001-02-03" = true :=
  c2_single_format.1 "2001-02-03" ⟨2001, 2, 3⟩ (by decide)

/-- A request whose single row has an unparseable date text. -/
def creq3 : Request :=
  ⟨"Bob", 1, [mkRow "garbage"], 0, 0⟩

/-- C3 counterexample: when a date text matches no accepted format the
date cell is NOT left in its template-default state — the raw text
"garbage" is written into cell B5 of the selected sheet. -/
theorem c3_counterexample :
    parseISODate "garbage" = none ∧
    WbAction.setCellValue "Week 1" "B5" (Value.str "garbage") ∈ populateWrites creq3 := by
  constructor <;> decide

/-- C3 (amended): for every entry of the detail block, exactly one
write is issued for its date cell — the parsed date when the text
parses, the raw text when it does not (the cell is not left
untouched) — and no style is ever applied, because the code performs
no style operations at all. -/
theorem c3_unparsed_date_written_raw (sheet : String) (rows : List Row) (r : Int)
    (i : Nat) (rr : Row) (h : rows.get? i = some rr) :
    (rowWrites sheet rows r).get? i =
      some (WbAction.setCellValue sheet ("B" ++ itoa (r + i)) (dateCellValue rr.Date)) ∧
    (parseISODate rr.Date = none → dateCellValue rr.Date = Value.str rr.Date) ∧
    (∀ d, parseISODate rr.Date = some d → dateCellValue rr.Date = Value.date d) ∧
    (∀ a ∈ rowWrites sheet rows r, ∀ s c st, a ≠ WbAction.setCellStyle s c st) := by
  refine ⟨?_, ?_, ?_, ?_⟩
  · rw [rowWrites_get?, h]
    rfl
  · intro hp
    unfold dateCellValue
    rw [hp]
  · intro d hp
    unfold dateCellValue
    rw [hp]
  · intro a ha s c st
    obtain ⟨j, rr', _, h2⟩ := rowWrites_mem sheet rows r a ha
    rw [h2]
    simp

/-- C3 witness: the amended theorem applied to the one-row request
with the unparseable date "garbage". -/
theorem c3_witness :
    (rowWrites "Week 1" [mkRow "garbage"] 5).get? 0 =
      some (WbAction.setCellValue "Week 1" "B5" (Value.str "garbage")) := by
  have h := (c3_unparsed_date_written_raw "Week 1" [mkRow "garbage"] 5 0 (mkRow "garbage") rfl).1
  simpa using h

/-- A valid-looking request: selector 1, non-empty name, seven rows. -/
def creq4 : Request :=
  ⟨"Alice", 1,
    [mkRow "2023-08-06", mkRow "2023-08-07", mkRow "2023-08-08",
     mkRow "2023-08-09", mkRow "2023-08-10", mkRow "2023-08-11",
     mkRow "2023-08-12"], 0, 0⟩

/-- C4 counterexample: with selector 1 and the non-empty name "Alice",
the trace also writes the name into AJ2 of sheet "Week 2" — a cell of
the other week's layout — so the name is not confined to the selected
week. -/
theorem c4_counterexample :
    creq4.WeekNumber = 1 ∧ creq4.EmployeeName ≠ "" ∧
    WbAction.setCellValue "Week 2" "AJ2" (Value.str "Alice") ∈ populateWrites creq4 := by
  refine ⟨rfl, by decide, by decide⟩

/-- C4 (amended): for every request — any selector, any name, empty
included — the trace begins with exactly two employee-name writes, one
into M2 of Week 1 and one into AJ2 of Week 2 (the code deliberately
writes the name to both weeks). -/
theorem c4_name_written_to_both_weeks (req : Request) :
    (populateWrites req).take 2 =
      [WbAction.setCellValue "Week 1" cellEmployeeW1 (Value.str req.EmployeeName),
       WbAction.setCellValue "Week 2" cellEmployeeW2 (Value.str req.EmployeeName)] := by
  rw [populateWrites_eq]
  rfl

/-- A request with eight rows of parseable dates. -/
def creq5 : Request :=
  ⟨"Carol", 1,
    [mkRow "2023-08-06", mkRow "2023-08-07", mkRow "2023-08-08",
     mkRow "2023-08-09", mkRow "2023-08-10", mkRow "2023-08-11",
     mkRow "2023-08-12", mkRow "2023-08-13"], 0, 0⟩

/-- C5 counterexample: in an eight-entry request the eighth entry also
participates — its date is written to B12, below the seven-row block —
so block fill is not limited to the first seven entries. -/
theorem c5_counterexample :
    creq5.Rows.length = 8 ∧
    WbAction.setCellValue "Week 1" "B12" (Value.date ⟨2023, 8, 13⟩) ∈ populateWrites creq5 := by
  constructor <;> decide

/-- C5 (amended): every entry participates in the fill (one date write
per entry, with no seven-entry cap), and there is no secondary date
block — besides the two employee-name writes the trace consists solely
of the primary per-entry date writes; the only overtime-related write,
the OT header date, is disabled by its empty cell constant. -/
theorem c5_all_rows_no_secondary_block (req : Request) :
    populateWrites req =
      WbAction.setCellValue "Week 1" cellEmployeeW1 (Value.str req.EmployeeName) ::
      WbAction.setCellValue "Week 2" cellEmployeeW2 (Value.str req.EmployeeName) ::
      rowWrites (sheetFor req) req.Rows startRow ∧
    (rowWrites (sheetFor req) req.Rows startRow).length = req.Rows.length ∧
    otHeaderWrites req.Rows (sheetFor req) = [] :=
  ⟨populateWrites_eq req, rowWrites_length _ _ _, otHeaderWrites_eq_nil _ _⟩

/-- A request whose first (and only) entry's date is Wednesday,
2023-08-09; the Sunday on or before it is 2023-08-06. -/
def creq6 : Request :=
  ⟨"Dan", 1, [mkRow "2023-08-09"], 0, 0⟩

/-- C6 counterexample: entry[0]'s date parses and falls on a Wednesday
(weekday index 3), whose week-start Sunday per the spec's arithmetic is
2023-08-06 — yet no action in the trace writes that date to any cell:
the handler computes no week-start anchor at all. -/
theorem c6_counterexample :
    parseISODate "2023-08-09" = some ⟨2023, 8, 9⟩ ∧
    weekdayIndex ⟨2023, 8, 9⟩ = 3 ∧
    specWeekStart ⟨2023, 8, 9⟩ = ⟨2023, 8, 6⟩ ∧
    (populateWrites creq6).any (mentionsDate ⟨2023, 8, 6⟩) = false := by
  refine ⟨by decide, by decide, by decide, by decide⟩

/-- C6 (amended): the handler performs no week-start derivation —
every calendar date appearing in the trace is the verbatim parse of
some entry's date text, never a value obtained by day-of-week
arithmetic; the sole write fed from entry[0] alone (the OT header
date, itself a verbatim copy) is disabled by its empty cell constant. -/
theorem c6_no_week_start_anchor (req : Request) (s c : String) (d : NormalizedDate)
    (h : WbAction.setCellValue s c (Value.date d) ∈ populateWrites req) :
    ∃ i rr, req.Rows.get? i = some rr ∧ parseISODate rr.Date = some d := by
  rw [populateWrites_eq] at h
  rcases List.mem_cons.mp h with h1 | h1
  · exact absurd h1 (by simp)
  rcases List.mem_cons.mp h1 with h2 | h2
  · exact absurd h2 (by simp)
  obtain ⟨i, rr, hget, heq⟩ := rowWrites_mem _ _ _ _ h2
  refine ⟨i, rr, hget, ?_⟩
  have hval : Value.date d = dateCellValue rr.Date := by
    have := congrArg (fun a => match a with
      | WbAction.setCellValue _ _ v => v
      | WbAction.setCellStyle _ _ _ => Value.str "") heq
    simpa using this
  unfold dateCellValue at hval
  cases hp : parseISODate rr.Date with
  | none => rw [hp] at hval; exact absurd hval (by simp)
  | some t =>
    rw [hp] at hval
    simp at hval
    rw [hval]

/-- C6 witness: the amended theorem applied to the one-row request,
whose B5 write carries the parsed date 2023-08-09. -/
theorem c6_witness :
    ∃ i rr, creq6.Rows.get? i = some rr ∧ parseISODate rr.Date = some ⟨2023, 8, 9⟩ :=
  c6_no_week_start_anchor creq6 "Week 1" "B5" ⟨2023, 8, 9⟩ (by decide)

/-- C7: every selector outside {1, 2} resolves to the Week 1 sheet and
makes the handler behave identically — on every infrastructure outcome
— to the same request with selector 1; the selector never causes a
failure. -/
theorem c7_unknown_selector_defaults_to_week1 (infra : Infra) (req : Request)
    (_h1 : req.WeekNumber ≠ 1) (h2 : req.WeekNumber ≠ 2) :
    sheetFor req = "Week 1" ∧
    makeHandler infra req = makeHandler infra (setWeekNumber req 1) := by
  have hs : sheetFor req = "Week 1" := by
    unfold sheetFor
    rw [if_neg h2]
  have hs1 : sheetFor (setWeekNumber req 1) = "Week 1" := by
    unfold sheetFor setWeekNumber
    norm_num
  refine ⟨hs, ?_⟩
  have hp : populateWrites req = populateWrites (setWeekNumber req 1) := by
    unfold populateWrites
    rw [hs, hs1]
    rfl
  unfold makeHandler
  rw [hp]

/-- A request with the unrecognized selector 7. -/
def creq7 : Request :=
  ⟨"Eve", 7, [mkRow "2023-08-06"], 0, 0⟩

/-- C7 witness: the theorem applied to selector 7 with succeeding
infrastructure. -/
theorem c7_witness :
    sheetFor creq7 = "Week 1" ∧
    makeHandler infraOK creq7 = makeHandler infraOK (setWeekNumber creq7 1) :=
  c7_unknown_selector_defaults_to_week1 infraOK creq7 (by decide) (by decide)

/-- C8: whenever the template read, the template open, or the final
serialization fails, the handler aborts with an error and returns no
output bytes. -/
theorem c8_fatal_errors_yield_no_bytes (infra : Infra) (req : Request)
    (h : infra.readOK = false ∨ infra.openOK = false ∨ infra.serializeOK = false) :
    (∃ e, makeHandler infra req = Except.error e) ∧
    ∀ bytes, makeHandler infra req ≠ Except.ok bytes := by
  have herr : ∃ e, makeHandler infra req = Except.error e := by
    unfold makeHandler
    rcases h with h | h | h
    · rw [if_pos h]
      exact ⟨_, rfl⟩
    · by_cases hr : infra.readOK = false
      · rw [if_pos hr]
        exact ⟨_, rfl⟩
      · rw [if_neg hr, if_pos h]
        exact ⟨_, rfl⟩
    · by_cases hr : infra.readOK = false
      · rw [if_pos hr]
        exact ⟨_, rfl⟩
      · rw [if_neg hr]
        by_cases ho : infra.openOK = false
        · rw [if_pos ho]
          exact ⟨_, rfl⟩
        · rw [if_neg ho, if_pos h]
          exact ⟨_, rfl⟩
  refine ⟨herr, ?_⟩
  intro bytes hok
  obtain ⟨e, he⟩ := herr
  rw [he] at hok
  exact Except.noConfusion hok

/-- Infrastructure oracle whose template read fails. -/
def infraBadRead : Infra :=
  ⟨false, true, true, fun _ => []⟩

/-- C8 witness: the theorem applied to a failing template read. -/
theorem c8_witness :
    (∃ e, makeHandler infraBadRead creq1 = Except.error e) ∧
    ∀ bytes, makeHandler infraBadRead creq1 ≠ Except.ok bytes :=
  c8_fatal_errors_yield_no_bytes infraBadRead creq1 (Or.inl rfl)

/-- C9: the aggregate totals never influence the output — two requests
agreeing on name, selector, and rows produce identical handler results
whatever their TotalOC and TotalOT, since every totals write is guarded
on a non-empty cell constant and all six constants are empty (and
TotalOC is not even passed to `writeTotals`). -/
theorem c9_totals_noninterference (infra : Infra) (r1 r2 : Request)
    (hn : r1.EmployeeName = r2.EmployeeName) (hw : r1.WeekNumber = r2.WeekNumber)
    (hr : r1.Rows = r2.Rows) :
    makeHandler infra r1 = makeHandler infra r2 := by
  have hs : sheetFor r1 = sheetFor r2 := by
    unfold sheetFor
    rw [hw]
  have hp : populateWrites r1 = populateWrites r2 := by
    unfold populateWrites
    rw [hn, hr, hs, writeTotals_eq_nil, writeTotals_eq_nil]
  unfold makeHandler
  rw [hp]

/-- Two requests identical except for their totals fields. -/
def creq9a : Request :=
  ⟨"Fay", 1, [mkRow "2023-08-06"], 1, 2⟩

/-- Companion to `creq9a` with different totals. -/
def creq9b : Request :=
  ⟨"Fay", 1, [mkRow "2023-08-06"], 3, 4⟩

/-- C9 witness: the noninterference theorem applied to two concrete
requests that differ in both totals. -/
theorem c9_witness :
    makeHandler infraOK creq9a = makeHandler infraOK creq9b ∧
    creq9a.TotalOC ≠ creq9b.TotalOC ∧ creq9a.TotalOT ≠ creq9b.TotalOT :=
  ⟨c9_totals_noninterference infraOK creq9a creq9b rfl rfl rfl,
   by norm_num [creq9a, creq9b], by norm_num [creq9a, creq9b]⟩

/-- C10: for every request and every index i into its entire entry
sequence (no seven-entry bound), the trace element after the two
employee writes at position 2 + i is the write of entry i's date value
into column B, row 5 + i, of the selected week's sheet; and the trace
has exactly 2 + (number of entries) elements, so the Project, Hours,
Type and Notes fields — whose column mappings are empty — are never
written anywhere. -/
theorem c10_date_column_only (req : Request) (i : Nat) (h : i < req.Rows.length) :
    (populateWrites req).get? (2 + i) =
      some (WbAction.setCellValue (sheetFor req) ("B" ++ itoa (startRow + i))
        (dateCellValue ((req.Rows.get ⟨i, h⟩).Date))) ∧
    (populateWrites req).length = 2 + req.Rows.length := by
  constructor
  · rw [populateWrites_eq]
    rw [show 2 + i = i + 1 + 1 from by omega]
    simp only [List.get?_cons_succ]
    rw [rowWrites_get?]
    rw [List.get?_eq_get h]
    rfl
  · rw [populateWrites_eq]
    simp [rowWrites_length]
    omega

/-- A two-row request for week 2, the second row unparseable. -/
def creq10 : Request :=
  ⟨"Gil", 2, [mkRow "2023-08-06", mkRow "bad"], 0, 0⟩

/-- C10 witness: the theorem applied at index 1 of a week-2 request —
the unparseable second date lands, as raw text, in B6 of Week 2. -/
theorem c10_witness :
    (populateWrites creq10).get? 3 =
      some (WbAction.setCellValue "Week 2" "B6" (Value.str "bad")) ∧
    (populateWrites creq10).length = 4 := by
  have h := c10_date_column_only creq10 1 (by decide)
  exact h
